import Mathlib

/-!
Shallow embedding of the bottlerocket-test-system agent core:
the test-agent lifecycle (`TestAgent::run` in agent/test-agent/src/agent.rs)
and the EKS resource provider (`EksCreator::create`, `EksDestroyer::destroy`
in bottlerocket/agents/src/bin/eks-resource-agent/eks_provider.rs).

Pure logic (control flow, memo updates, error classification) is embedded
exactly; each fallible external call (kubernetes info channel, AWS SDK call,
spawned process) is drawn from an explicit world/oracle record, and the
embedding attaches the classification and message that the source attaches
at that call site.  Every embedded operation also returns the list of
externally visible events it performed, in order, so that ordering claims
can be stated about traces.
-/

/-- The resource classification attached to every provider error
(`resource_agent::provider::Resources`). -/
inductive Resources where
  | Clear
  | Remaining
  | Orphaned
  | Unknown
  deriving DecidableEq

/-- A provider error: the classification together with the human readable
context message attached at the failing call site
(`resource_agent::provider::ProviderError`).  The embedding keeps only the
context string of the source (the wrapped inner error is abstracted away);
by construction every error carries exactly one `Resources` classification. -/
structure ProviderError where
  resources : Resources
  message : String
  deriving DecidableEq

deriving instance DecidableEq for Except

/-- Embeds `resource_agent::provider::ProviderResult`. -/
abbrev ProviderResult (α : Type) := Except ProviderError α

/-- Embeds `.context(resources, msg)` on a fallible result: on failure, attach the
given classification and context message (source: `IntoProviderError`). -/
def contextE {α : Type} (r : Except String α) (res : Resources) (msg : String) :
    ProviderResult α :=
  match r with
  | .ok a => .ok a
  | .error _ => .error ⟨res, msg⟩

/-- Embeds `.context(resources, msg)` on an optional value (source: `IntoProviderError`
for `Option`). -/
def contextO {α : Type} (o : Option α) (res : Resources) (msg : String) :
    ProviderResult α :=
  match o with
  | some a => .ok a
  | none => .error ⟨res, msg⟩

/-- Embeds `aws_sdk_eks::types::IpFamily`: `Ipv4`, `Ipv6`, or an unrecognized
variant (the SDK enum is non-exhaustive). -/
inductive IpFamily where
  | Ipv4
  | Ipv6
  | Unrecognized (value : String)
  deriving DecidableEq

/-- Splitting a character list at every occurrence of a separator character;
the semantics of Rust's `str::split(char)`: the result always has one more
element than there are separators, so the empty input yields `[[]]`. -/
def split_on_char (sep : Char) : List Char → List (List Char)
  | [] => [[]]
  | c :: rest =>
    match split_on_char sep rest with
    | [] => [[c]]
    | hd :: tl =>
      if c = sep then [] :: hd :: tl else (c :: hd) :: tl

/-- Rust's `str::split(sep).collect::<Vec<&str>>()` for a character
separator. -/
def string_split (s : String) (sep : Char) : List String :=
  (split_on_char sep s.toList).map (fun cs => String.mk cs)

/-- Rust's `[String]::join(sep)`. -/
def join_with (sep : String) : List String → String
  | [] => ""
  | [x] => x
  | x :: y :: rest => x ++ sep ++ join_with sep (y :: rest)

/-- Embeds `service_ip_cidr_to_cluster_dns_ip` (eks_provider.rs): derive the cluster
DNS IP from the service CIDR.  For IPv6 the prefix before the first `/` gets
the suffix `"a"`; otherwise the string is split on `.`, the split must have
exactly 4 components, and the last component is replaced by `"10"`. -/
def service_ip_cidr_to_cluster_dns_ip
    (ip_family : Option IpFamily)
    (service_ipv4_cidr : Option String)
    (service_ipv6_cidr : Option String) : ProviderResult String :=
  match ip_family with
  | none =>
    .error ⟨.Remaining, "Cluster network config missing IP family information"⟩
  | some fam =>
    match fam with
    | .Ipv6 =>
      match service_ipv6_cidr with
      | none =>
        .error ⟨.Remaining, "IPv6 Cluster missing serviceIPv6CIDR information"⟩
      | some cidr =>
        .ok (((string_split cidr '/').headD "") ++ "a")
    | _ =>
      match service_ipv4_cidr with
      | none =>
        .error ⟨.Remaining, "IPv4 Cluster missing serviceIPv4CIDR information"⟩
      | some cidr =>
        let cidr_split := string_split cidr '.'
        if cidr_split.length ≠ 4 then
          .error ⟨.Remaining,
            "Expected 4 components in serviceIPv4CIDR but found "
              ++ toString cidr_split.length⟩
        else
          .ok (join_with "." (cidr_split.set 3 "10"))

/-- The number of dot-separated segments in the part of a CIDR string that
stands before the first `/` (the reading of "part before the '/'" used by the
specification sentence about malformed IPv4 network strings). -/
def segments_before_slash (s : String) : Nat :=
  (string_split ((string_split s '/').headD "") '.').length

/-- The agent-level error taxonomy (test-agent `error::Error`): a failure of
the communication with the control plane (`Client`) or an operation-specific
failure of the injected runner (`Runner`).  Bootstrap errors happen only in
`TestAgent::new`, before `run`, and are outside this embedding. -/
inductive AgentError (CE RE : Type) where
  | Client : CE → AgentError CE RE
  | Runner : RE → AgentError CE RE
  deriving DecidableEq

/-- The externally visible actions a `TestAgent::run` execution can perform,
in the order they were performed. -/
inductive AgentEvent (CE RE T : Type) where
  | sendTestStarting
  | runnerRun
  | sendTestDone : T → AgentEvent CE RE T
  | sendError : AgentError CE RE → AgentEvent CE RE T
  | runnerTerminate
  deriving DecidableEq

/-- The world one `TestAgent::run` execution runs against: the outcome of
each external call it may make.  `runner_terminate` is consulted at most once
per execution (every path of `run` terminates the runner at most once), and
`send_error` gives the outcome of reporting a given error to kubernetes. -/
structure RunWorld (CE RE T : Type) where
  send_test_starting : Except CE Unit
  runner_run : Except RE T
  send_test_done : T → Except CE Unit
  runner_terminate : Except RE Unit
  send_error : AgentError CE RE → Except CE Unit

/-- Embeds `TestAgent::send_error_best_effort`: attempt to send the error to
kubernetes; a failure of the send itself is only logged, never propagated.
Returns the events performed. -/
def send_error_best_effort {CE RE T : Type} (w : RunWorld CE RE T)
    (e : AgentError CE RE) : List (AgentEvent CE RE T) :=
  let _ := w.send_error e
  [.sendError e]

/-- Embeds `TestAgent::terminate_best_effort`: tell the runner to terminate; if that
fails, try to send the error to kubernetes, and only log any failure. -/
def terminate_best_effort {CE RE T : Type} (w : RunWorld CE RE T) :
    List (AgentEvent CE RE T) :=
  match w.runner_terminate with
  | .ok _ => [.runnerTerminate]
  | .error e => .runnerTerminate :: send_error_best_effort w (.Runner e)

/-- Embeds `TestAgent::run` (agent/test-agent/src/agent.rs): send the starting
notification, run the runner, send the results, terminate the runner; on any
failure attempt best-effort reporting/termination and return the original
error.  Returns the result together with the trace of performed actions. -/
def TestAgent.run {CE RE T : Type} (w : RunWorld CE RE T) :
    Except (AgentError CE RE) Unit × List (AgentEvent CE RE T) :=
  match w.send_test_starting with
  | .error ce => (.error (.Client ce), [.sendTestStarting])
  | .ok _ =>
    match w.runner_run with
    | .error re =>
      let e : AgentError CE RE := .Runner re
      (.error e,
        [.sendTestStarting, .runnerRun]
          ++ send_error_best_effort w e ++ terminate_best_effort w)
    | .ok test_results =>
      match w.send_test_done test_results with
      | .error ce =>
        let e : AgentError CE RE := .Client ce
        (.error e,
          [.sendTestStarting, .runnerRun, .sendTestDone test_results]
            ++ send_error_best_effort w e ++ terminate_best_effort w)
      | .ok _ =>
        match w.runner_terminate with
        | .error re =>
          let e : AgentError CE RE := .Runner re
          (.error e,
            [.sendTestStarting, .runnerRun, .sendTestDone test_results,
              .runnerTerminate] ++ send_error_best_effort w e)
        | .ok _ =>
          (.ok (),
            [.sendTestStarting, .runnerRun, .sendTestDone test_results,
              .runnerTerminate])

/-- Whether an agent event is the outcome notification `send_test_done`. -/
def is_send_test_done {CE RE T : Type} : AgentEvent CE RE T → Bool
  | .sendTestDone _ => true
  | _ => false

/-- Modelled from the spec: `CreationPolicy` is defined in the
`bottlerocket_types::agent_config` crate, which is not among the provided
sources.  The specification (section 4.2 step 2) lists its values: always
create; never create (the resource must already exist); create if not
present; if not present, fail.  The spec does not fix which value is the
`Default`; the embedding uses create-if-not-present. -/
inductive CreationPolicy where
  | alwaysCreate
  | neverCreate
  | createIfNotPresent
  | ifNotPresentFail
  deriving DecidableEq

instance : Inhabited CreationPolicy :=
  ⟨.createIfNotPresent⟩

/-- Embeds `ProductionMemo` (eks_provider.rs): the durable progress record of one
EKS resource-agent run, persisted through the info channel. -/
structure ProductionMemo where
  current_status : String := ""
  aws_secret_name : Option String := none
  cluster_name : Option String := none
  creation_policy : Option CreationPolicy := none
  region : Option String := none
  assume_role : Option String := none
  provisioning_started : Bool := false
  deriving DecidableEq

/-- Embeds `CreatedCluster` (eks_provider.rs): the typed result of a successful
cluster provisioning. -/
structure CreatedCluster where
  cluster_name : String
  region : String
  endpoint : String
  certificate : String
  cluster_dns_ip : String
  public_subnet_ids : List String
  private_subnet_ids : List String
  security_groups : List String
  cluster_sg : String
  iam_instance_profile_arn : String
  encoded_kubeconfig : String
  deriving DecidableEq

def DEFAULT_REGION : String := "us-west-2"

def DEFAULT_VERSION : String := "1.32"

def TEST_CLUSTER_CONFIG_PATH : String := "/local/eksctl_config.yaml"

def CLUSTER_CONFIG_PATH : String := "/local/cluster_config.yaml"

/-- Embeds `K8sVersion` (bottlerocket_types): only its `major_minor_without_v`
rendering is used by this provider, so the embedding keeps exactly that. -/
structure K8sVersion where
  major_minor_without_v : String
  deriving DecidableEq

/-- Embeds `EksctlConfig` (bottlerocket_types): either a base64-encoded eksctl
config file or explicit arguments. -/
inductive EksctlConfig where
  | File (encoded_config : String)
  | Args (cluster_name : String) (region : Option String)
      (zones : Option (List String)) (version : Option K8sVersion)
  deriving DecidableEq

/-- Embeds `EksClusterConfig` (bottlerocket_types): the fields of the spec
configuration that `EksCreator::create` reads. -/
structure EksClusterConfig where
  creation_policy : Option CreationPolicy := none
  config : EksctlConfig
  eks_service_endpoint : Option String := none
  assume_role : Option String := none
  deriving DecidableEq

/-- The key under which AWS credentials are stored in the spec secrets map
(`AWS_CREDENTIALS_SECRET_NAME` in bottlerocket_types; its concrete value is
immaterial to the embedded control flow). -/
def AWS_CREDENTIALS_SECRET_NAME : String := "awsCredentials"

/-- Embeds `Spec<EksClusterConfig>` (resource_agent): the declared configuration
plus the secrets map delivered by the control plane. -/
structure Spec where
  configuration : EksClusterConfig
  secrets : List (String × String) := []
  deriving DecidableEq

/-- Embeds `spec.secrets.get(name)`. -/
def Spec.getSecret (s : Spec) (name : String) : Option String :=
  (s.secrets.find? (fun p => p.1 == name)).map (fun p => p.2)

/-- The externally visible actions an `EksDestroyer::destroy` execution can
perform, in order: building the AWS configuration, running
`eksctl delete cluster`, and writing a memo through the info channel
(the `ok` flag records whether that write succeeded). -/
inductive DestroyEvent where
  | awsConfig
  | eksctlDeleteCluster (cluster_name : String) (region : String)
  | sendInfo (memo : ProductionMemo) (ok : Bool)
  deriving DecidableEq

/-- The world one `EksDestroyer::destroy` execution runs against. -/
structure DestroyWorld where
  /-- Result of `client.get_info()`. -/
  get_info : Except String ProductionMemo
  /-- Result of building the AWS SDK configuration from the memo. -/
  aws_config_result : Except String Unit
  /-- Result of spawning `eksctl delete cluster`: an error if the command
  could not be run at all, otherwise the exit code of the process. -/
  eksctl_delete_status : Except String Int
  /-- Result of the final best-effort `send_info`. -/
  send_info_result : Except String Unit

/-- Whether a fallible call succeeded. -/
def except_is_ok {ε α : Type} : Except ε α → Bool
  | .ok _ => true
  | .error _ => false

/-- Embeds `EksDestroyer::destroy` (eks_provider.rs): read the memo; if
`provisioning_started` is not set, succeed immediately; otherwise derive the
cluster name, credentials and region from the memo (the `spec` and
`prior_resource` arguments are bound to `_` in the source and never read),
run `eksctl delete cluster`, and best-effort checkpoint the terminal status.
Returns the result together with the trace of performed actions. -/
def EksDestroyer.destroy (spec : Option Spec)
    (prior_resource : Option CreatedCluster) (w : DestroyWorld) :
    ProviderResult Unit × List DestroyEvent :=
  match w.get_info with
  | .error _ => (.error ⟨.Remaining, "Unable to get info from client"⟩, [])
  | .ok memo =>
    if !memo.provisioning_started then (.ok (), [])
    else
      match memo.cluster_name with
      | none => (.error ⟨.Unknown, "Unable to obtain cluster name"⟩, [])
      | some cluster_name =>
        match w.aws_config_result with
        | .error _ => (.error ⟨.Clear, "Error creating config"⟩, [.awsConfig])
        | .ok _ =>
          let region := memo.region.getD DEFAULT_REGION
          match w.eksctl_delete_status with
          | .error _ =>
            (.error ⟨.Remaining, "Failed to run eksctl delete command"⟩,
              [.awsConfig, .eksctlDeleteCluster cluster_name region])
          | .ok code =>
            if code ≠ 0 then
              (.error ⟨.Orphaned,
                "Failed to delete cluster with status code " ++ toString code⟩,
                [.awsConfig, .eksctlDeleteCluster cluster_name region])
            else
              let memo2 := { memo with current_status := "Cluster deleted" }
              (.ok (),
                [.awsConfig, .eksctlDeleteCluster cluster_name region,
                  .sendInfo memo2 (except_is_ok w.send_info_result)])

/-- The stage of `ClusterConfig::new` file parsing that failed: base64
decoding, conversion of the decoded bytes to a string, or YAML parsing. -/
inductive FileParseStage where
  | decode
  | utf8
  | yaml
  deriving DecidableEq

/-- Embeds `ClusterConfig` (eks_provider.rs): the provider either received explicit
arguments or a config file whose name/region were extracted from its
metadata. -/
inductive ClusterConfig where
  | Args (cluster_name : String) (region : String)
      (version : Option K8sVersion) (zones : Option (List String))
  | ConfigPath (cluster_name : String) (region : String)
  deriving DecidableEq

/-- Embeds `ClusterConfig::new` (eks_provider.rs).  For the `File` variant the
base64/utf8/YAML processing of the encoded config is abstracted into the
`file_parse` oracle: an error names the failing stage, `ok none` means the
parsed YAML had no `metadata` mapping, and `ok (some (name?, region?))`
gives the optional `metadata.name` and `metadata.region` strings.  Each
failure is classified `Clear` exactly as in the source. -/
def ClusterConfig.new (eksctl_config : EksctlConfig)
    (file_parse : Except FileParseStage (Option (Option String × Option String))) :
    ProviderResult ClusterConfig :=
  match eksctl_config with
  | .File _ =>
    match file_parse with
    | .error .decode => .error ⟨.Clear, "Unable to decode eksctl configuration."⟩
    | .error .utf8 =>
      .error ⟨.Clear, "Unable to convert decoded config to string."⟩
    | .error .yaml => .error ⟨.Clear, "Unable to serialize eksctl config."⟩
    | .ok none => .error ⟨.Clear, "Metadata is missing from eksctl config."⟩
    | .ok (some (name?, region?)) =>
      match name? with
      | none =>
        .error ⟨.Clear, "The cluster name was not in the eksctl config."⟩
      | some cluster_name =>
        match region? with
        | none =>
          .error ⟨.Clear, "The cluster region was not in the eksctl config."⟩
        | some region => .ok (.ConfigPath cluster_name region)
  | .Args cluster_name region zones version =>
    .ok (.Args cluster_name (region.getD DEFAULT_REGION) version zones)

/-- Embeds `ClusterConfig::region`. -/
def ClusterConfig.region : ClusterConfig → String
  | .Args _ region _ _ => region
  | .ConfigPath _ region => region

/-- Embeds `ClusterConfig::cluster_name`. -/
def ClusterConfig.cluster_name : ClusterConfig → String
  | .Args cluster_name _ _ _ => cluster_name
  | .ConfigPath cluster_name _ => cluster_name

/-- The stage of `create_yaml` that failed: YAML serialization, creation of
the config file, or writing it. -/
inductive CreateYamlStage where
  | serialize
  | createFile
  | writeAll
  deriving DecidableEq

/-- Embeds `create_yaml` (eks_provider.rs): serialize the eksctl cluster config and
write it to `CLUSTER_CONFIG_PATH`.  The YAML value itself is irrelevant to
the embedded claims; what is kept is that each failure of this step is
classified `Clear` in the source, with the source's context messages. -/
def create_yaml (cluster_name : String) (region : String) (version : String)
    (zones : Option (List String)) (result : Except CreateYamlStage Unit) :
    ProviderResult Unit :=
  match result with
  | .error .serialize => .error ⟨.Clear, "Failed to serialize YAML"⟩
  | .error .createFile => .error ⟨.Clear, "Failed to create yaml file"⟩
  | .error .writeAll =>
    .error ⟨.Clear,
      "Unable to write eksctl configuration to " ++ CLUSTER_CONFIG_PATH⟩
  | .ok _ => .ok ()

/-- The externally visible actions an `EksCreator::create` execution can
perform, in order: memo writes through the info channel (the `ok` flag
records whether the write succeeded), spawning `eksctl create cluster`, and
spawning `aws eks update-kubeconfig`. -/
inductive CreateEvent where
  | sendInfo (memo : ProductionMemo) (ok : Bool)
  | eksctlCreateCluster (config_path : String)
  | awsUpdateKubeconfig
  deriving DecidableEq

/-- The `eksctl create cluster -f path` invocation inside
`ClusterConfig::create_cluster`: spawn failure and non-zero exit are both
classified `Clear` in the source. -/
def run_eksctl_create (config_path : String) (status : Except String Int) :
    ProviderResult Unit × List CreateEvent :=
  match status with
  | .error _ =>
    (.error ⟨.Clear, "Failed create cluster"⟩, [.eksctlCreateCluster config_path])
  | .ok code =>
    if code ≠ 0 then
      (.error ⟨.Clear, "Failed create cluster with status code " ++ toString code⟩,
        [.eksctlCreateCluster config_path])
    else (.ok (), [.eksctlCreateCluster config_path])

/-- Embeds `ClusterConfig::create_cluster` (eks_provider.rs): for the `Args` variant
generate the YAML config first, then run `eksctl create cluster` with the
appropriate config file path. -/
def ClusterConfig.create_cluster (cfg : ClusterConfig)
    (create_yaml_result : Except CreateYamlStage Unit)
    (eksctl_create_status : Except String Int) :
    ProviderResult Unit × List CreateEvent :=
  match cfg with
  | .Args cluster_name region version zones =>
    let version_arg :=
      (version.map (fun v => v.major_minor_without_v)).getD DEFAULT_VERSION
    match create_yaml cluster_name region version_arg zones create_yaml_result with
    | .error e => (.error e, [])
    | .ok _ => run_eksctl_create CLUSTER_CONFIG_PATH eksctl_create_status
  | .ConfigPath _ _ =>
    run_eksctl_create TEST_CLUSTER_CONFIG_PATH eksctl_create_status

/-- Outcome of the `describe_cluster` call made by `does_cluster_exist`:
the cluster was found, the call failed with `ResourceNotFoundException`, or
the call failed in any other way. -/
inductive DescribeClusterResult where
  | found
  | notFound
  | otherError
  deriving DecidableEq

/-- Embeds `does_cluster_exist` (eks_provider.rs): `ResourceNotFoundException`
means the cluster does not exist; any other error is classified `Clear`. -/
def does_cluster_exist (name : String) (r : DescribeClusterResult) :
    ProviderResult Bool :=
  match r with
  | .notFound => .ok false
  | .otherError =>
    .error ⟨.Clear, "Unable to determine if cluster " ++ name ++ " exists"⟩
  | .found => .ok true

/-- Modelled from the spec: `is_cluster_creation_required` is exported from
the `bottlerocket_agents` crate root, which is not among the provided
sources.  Per section 4.2 step 2 of the specification, the declared creation
policy is combined with the observed existence of the cluster; contradictory
combinations (policy demands creation but the cluster exists, policy forbids
creation but the cluster is absent, or the if-not-present-fail policy finds
no cluster) are immediate failures classified `Clear`; otherwise the boolean
says whether creation is required, with a status message. -/
def is_cluster_creation_required (cluster_exists : Bool) (cluster_name : String)
    (creation_policy : CreationPolicy) : ProviderResult (Bool × String) :=
  match creation_policy, cluster_exists with
  | .alwaysCreate, true =>
    .error ⟨.Clear, "Creation policy requires creation but cluster "
      ++ cluster_name ++ " already exists"⟩
  | .alwaysCreate, false => .ok (true, "Creating cluster " ++ cluster_name)
  | .neverCreate, true => .ok (false, "Using existing cluster " ++ cluster_name)
  | .neverCreate, false =>
    .error ⟨.Clear, "Creation policy forbids creation and cluster "
      ++ cluster_name ++ " does not exist"⟩
  | .createIfNotPresent, true =>
    .ok (false, "Using existing cluster " ++ cluster_name)
  | .createIfNotPresent, false =>
    .ok (true, "Creating cluster " ++ cluster_name)
  | .ifNotPresentFail, true =>
    .ok (false, "Using existing cluster " ++ cluster_name)
  | .ifNotPresentFail, false =>
    .error ⟨.Clear, "Cluster " ++ cluster_name ++ " does not exist"⟩

/-- Embeds `is_eks_cluster_creation_required` (eks_provider.rs): check whether the
cluster exists, then combine with the creation policy. -/
def is_eks_cluster_creation_required (cluster_name : String)
    (creation_policy : CreationPolicy) (r : DescribeClusterResult) :
    ProviderResult (Bool × String) :=
  match does_cluster_exist cluster_name r with
  | .error e => .error e
  | .ok cluster_exists =>
    is_cluster_creation_required cluster_exists cluster_name creation_policy

/-- Embeds `write_kubeconfig` (eks_provider.rs): run `aws eks update-kubeconfig`;
spawn failure and non-zero exit are both classified `Remaining`. -/
def write_kubeconfig (cluster_name : String) (endpoint : Option String)
    (region : String) (status : Except String Int) : ProviderResult Unit :=
  match status with
  | .error _ => .error ⟨.Remaining, "Failed update kubeconfig"⟩
  | .ok code =>
    if code ≠ 0 then
      .error ⟨.Remaining,
        "Failed update kubeconfig with status code " ++ toString code⟩
    else .ok ()

def base64_chars : List Char :=
  "ABCDEFGHIJKLMNOPQRSTUVWXYZabcdefghijklmnopqrstuvwxyz0123456789+/".toList

def base64_char (n : Nat) : Char :=
  base64_chars.getD n '='

/-- Standard base64 of a byte sequence, 6 bits per output character with
`=` padding. -/
def base64_encode_bytes : List Nat → List Char
  | [] => []
  | [b1] => [base64_char (b1 / 4), base64_char (b1 % 4 * 16), '=', '=']
  | [b1, b2] =>
    [base64_char (b1 / 4), base64_char (b1 % 4 * 16 + b2 / 16),
      base64_char (b2 % 16 * 4), '=']
  | b1 :: b2 :: b3 :: rest =>
    [base64_char (b1 / 4), base64_char (b1 % 4 * 16 + b2 / 16),
      base64_char (b2 % 16 * 4 + b3 / 64), base64_char (b3 % 64)]
      ++ base64_encode_bytes rest

/-- Embeds `Base64.encode` of the UTF-8 bytes of a string. -/
def base64_encode (s : String) : String :=
  String.mk (base64_encode_bytes (s.toUTF8.toList.map (fun b => b.toNat)))

/-- The fields of the `DescribeCluster` response read by the provider
(`aws_sdk_eks::types::Cluster`, restricted to what the source touches). -/
structure ClusterVpcConfig where
  subnet_ids : Option (List String)
  cluster_security_group_id : Option String
  deriving DecidableEq

/-- Embeds `aws_sdk_eks::types::KubernetesNetworkConfigResponse`, restricted to the
fields the source touches. -/
structure KubernetesNetworkConfigDesc where
  ip_family : Option IpFamily
  service_ipv4_cidr : Option String
  service_ipv6_cidr : Option String
  deriving DecidableEq

/-- The `Cluster` value returned by `DescribeCluster`, restricted to the
fields the source touches.  `certificate_authority` is doubly optional: the
outer layer is the field itself, the inner layer its `data`. -/
structure ClusterDesc where
  resources_vpc_config : Option ClusterVpcConfig
  endpoint : Option String
  certificate_authority : Option (Option String)
  kubernetes_network_config : Option KubernetesNetworkConfigDesc
  deriving DecidableEq

/-- Embeds `eks_subnet_ids` (eks_provider.rs). -/
def eks_subnet_ids (cluster : ClusterDesc) : ProviderResult (List String) :=
  match cluster.resources_vpc_config with
  | none => .error ⟨.Remaining, "Cluster missing resources_vpc_config field"⟩
  | some vpc =>
    match vpc.subnet_ids with
    | none => .error ⟨.Remaining, "resources_vpc_config missing subnet ids"⟩
    | some ids => .ok ids

/-- Embeds `cluster_sg` (eks_provider.rs). -/
def cluster_sg (cluster : ClusterDesc) : ProviderResult String :=
  match cluster.resources_vpc_config with
  | none => .error ⟨.Remaining, "Cluster missing resources_vpc_config field"⟩
  | some vpc =>
    match vpc.cluster_security_group_id with
    | none =>
      .error ⟨.Remaining, "resources_vpc_config missing cluster security group id"⟩
    | some sg => .ok sg

/-- Embeds `endpoint` (eks_provider.rs). -/
def endpoint (cluster : ClusterDesc) : ProviderResult String :=
  match cluster.endpoint with
  | none => .error ⟨.Remaining, "Cluster missing endpoint field"⟩
  | some e => .ok e

/-- Embeds `certificate` (eks_provider.rs). -/
def certificate (cluster : ClusterDesc) : ProviderResult String :=
  match cluster.certificate_authority with
  | none => .error ⟨.Remaining, "Cluster missing certificate_authority field"⟩
  | some data? =>
    match data? with
    | none => .error ⟨.Remaining, "Certificate authority missing data"⟩
    | some data => .ok data

/-- Embeds `cluster_dns_ip` (eks_provider.rs). -/
def cluster_dns_ip (cluster : ClusterDesc) : ProviderResult String :=
  match cluster.kubernetes_network_config with
  | none =>
    .error ⟨.Remaining, "DescribeCluster missing KubernetesNetworkConfig field"⟩
  | some knc =>
    service_ip_cidr_to_cluster_dns_ip knc.ip_family knc.service_ipv4_cidr
      knc.service_ipv6_cidr

/-- Embeds `subnet_ids` (eks_provider.rs): one `DescribeSubnets` query; the oracle
gives the outer call result, the optional `subnets` field, and the optional
`subnet_id` of each returned subnet. -/
def subnet_ids (query : Except String (Option (List (Option String)))) :
    ProviderResult (List (Option String)) :=
  match query with
  | .error _ => .error ⟨.Remaining, "Unable to get private subnet ids"⟩
  | .ok none => .error ⟨.Remaining, "Results missing subnets field"⟩
  | .ok (some subnets) => .ok subnets

/-- The stack-name pattern match inside `nodegroup_iam_role`. -/
def is_nodegroup_stack_name (cluster_name name : String) : Bool :=
  name.startsWith ("eksctl-" ++ cluster_name ++ "-nodegroup")
    || name.startsWith (cluster_name ++ "-node-group")

/-- The `list_stacks` pagination loop of `nodegroup_iam_role`
(eks_provider.rs): each element of `pages` is the result of one
`ListStacks` call (the stack names of that page); a further element plays
the role of a `next_token`.  The loop stops at the first page containing a
matching stack name, fails `Remaining` if a fetch fails, and fails
`Remaining` when the pages are exhausted. -/
def find_nodegroup_stack (cluster_name : String) :
    List (Except String (List String)) → ProviderResult String
  | [] =>
    .error ⟨.Remaining, "Could not find nodegroup cloudformation stack for cluster"⟩
  | page :: rest =>
    match page with
    | .error _ => .error ⟨.Remaining, "Unable to list CloudFormation stacks"⟩
    | .ok names =>
      match names.find? (fun n => is_nodegroup_stack_name cluster_name n) with
      | some name => .ok name
      | none => find_nodegroup_stack cluster_name rest

/-- Embeds `nodegroup_iam_role` (eks_provider.rs): find the nodegroup stack, then
read the `NodeInstanceRole` physical resource id from
`DescribeStackResource` (outer call fallible, `stack_resource_detail` and
`physical_resource_id` both optional), every failure `Remaining`. -/
def nodegroup_iam_role (cluster_name : String)
    (list_stacks_pages : List (Except String (List String)))
    (describe_stack_resource : Except String (Option (Option String))) :
    ProviderResult String :=
  match find_nodegroup_stack cluster_name list_stacks_pages with
  | .error e => .error e
  | .ok stack_name =>
    match describe_stack_resource with
    | .error _ =>
      .error ⟨.Remaining,
        "Unable to describe CloudFormation stack resources for " ++ stack_name⟩
    | .ok none =>
      .error ⟨.Remaining,
        "Missing NodeInstanceRole stack resource for " ++ stack_name⟩
    | .ok (some none) =>
      .error ⟨.Remaining, "Missing stack outputs in " ++ stack_name⟩
    | .ok (some (some physical_resource_id)) => .ok physical_resource_id

/-- Embeds `instance_profile_arn` (eks_provider.rs): list the instance profiles of
the role; exactly one must exist; every failure `Remaining`. -/
def instance_profile_arn (role_name : String)
    (list_instance_profiles : Except String (List String)) :
    ProviderResult String :=
  match list_instance_profiles with
  | .error _ =>
    .error ⟨.Remaining,
      "Unable to list instance profiles for role " ++ role_name⟩
  | .ok instance_profiles =>
    if instance_profiles.length > 1 then
      .error ⟨.Remaining,
        "More than one instance profile was found for role " ++ role_name⟩
    else
      match instance_profiles with
      | [] =>
        .error ⟨.Remaining,
          "No instance profile was found for role " ++ role_name⟩
      | arn :: _ => .ok arn

/-- The world one `EksCreator::create` execution runs against: the outcome
of each external call it may make, in program order.  `send_info_results k`
is the outcome of the k-th `send_info` call of the execution (0-based).
The trace records info-channel writes and spawned commands; AWS SDK reads
are pure oracle lookups. -/
structure CreateWorld where
  get_info : Except String ProductionMemo
  send_info_results : Nat → Except String Unit
  file_parse : Except FileParseStage (Option (Option String × Option String))
  aws_config1 : Except String Unit
  aws_config2 : Except String Unit
  describe_cluster_exists : DescribeClusterResult
  create_yaml_result : Except CreateYamlStage Unit
  eksctl_create_status : Except String Int
  update_kubeconfig_status : Except String Int
  read_kubeconfig : Except String String
  describe_cluster : Except String (Option ClusterDesc)
  public_subnets : Except String (Option (List (Option String)))
  private_subnets : Except String (Option (List (Option String)))
  list_stacks_pages : List (Except String (List String))
  describe_stack_resource : Except String (Option (Option String))
  list_instance_profiles : Except String (List String)

/-- Embeds `created_cluster` (eks_provider.rs): gather the full resource
description from a fresh `DescribeCluster` read-back plus the subnet, stack
and instance-profile queries; every failure is classified `Remaining`. -/
def created_cluster (encoded_kubeconfig : String) (cluster_name : String)
    (region : String) (w : CreateWorld) : ProviderResult CreatedCluster := do
  let cluster ←
    (match w.describe_cluster with
    | .error _ =>
      .error ⟨.Remaining, "Unable to get eks describe cluster"⟩
    | .ok none => .error ⟨.Remaining, "Response missing cluster field"⟩
    | .ok (some c) => .ok c : ProviderResult ClusterDesc)
  let _eks_subnet_ids ← eks_subnet_ids cluster
  let endpoint_v ← endpoint cluster
  let certificate_v ← certificate cluster
  let cluster_dns_ip_v ← cluster_dns_ip cluster
  let cluster_sg_v ← cluster_sg cluster
  let public_subnets ← subnet_ids w.public_subnets
  let private_subnets ← subnet_ids w.private_subnets
  let security_groups := [cluster_sg_v]
  let node_instance_role ←
    nodegroup_iam_role cluster_name w.list_stacks_pages w.describe_stack_resource
  let iam_instance_profile_arn_v ←
    instance_profile_arn node_instance_role w.list_instance_profiles
  pure
    { cluster_name := cluster_name
      region := region
      endpoint := endpoint_v
      certificate := certificate_v
      cluster_dns_ip := cluster_dns_ip_v
      public_subnet_ids := public_subnets.filterMap id
      private_subnet_ids := private_subnets.filterMap id
      security_groups := security_groups
      cluster_sg := cluster_sg_v
      iam_instance_profile_arn := iam_instance_profile_arn_v
      encoded_kubeconfig := encoded_kubeconfig }

/-- The tail of `EksCreator::create` after the conditional creation block:
checkpoint "Writing cluster kubeconfig", update and read back the
kubeconfig, checkpoint "Collecting cluster info", gather the resource
description, and checkpoint the final "Cluster ready" memo.  `k` is the
index of the next `send_info` call and `trace` the events performed so
far. -/
def create_finish (spec : Spec) (w : CreateWorld)
    (cluster_config : ClusterConfig) (memo : ProductionMemo) (k : Nat)
    (trace : List CreateEvent) :
    ProviderResult CreatedCluster × List CreateEvent :=
  let memo7 := { memo with current_status := "Writing cluster kubeconfig" }
  let ev := CreateEvent.sendInfo memo7 (except_is_ok (w.send_info_results k))
  match w.send_info_results k with
  | .error _ =>
    (.error ⟨.Remaining, "Error sending cluster creation message"⟩, trace ++ [ev])
  | .ok _ =>
    match write_kubeconfig cluster_config.cluster_name
        spec.configuration.eks_service_endpoint cluster_config.region
        w.update_kubeconfig_status with
    | .error e => (.error e, trace ++ [ev, .awsUpdateKubeconfig])
    | .ok _ =>
      match w.read_kubeconfig with
      | .error _ =>
        (.error ⟨.Remaining, "Unable to read kubeconfig."⟩,
          trace ++ [ev, .awsUpdateKubeconfig])
      | .ok kubeconfig =>
        let encoded_kubeconfig := base64_encode kubeconfig
        let memo8 := { memo7 with current_status := "Collecting cluster info" }
        let ev2 :=
          CreateEvent.sendInfo memo8 (except_is_ok (w.send_info_results (k + 1)))
        match w.send_info_results (k + 1) with
        | .error _ =>
          (.error ⟨.Remaining, "Error sending cluster creation message"⟩,
            trace ++ [ev, .awsUpdateKubeconfig, ev2])
        | .ok _ =>
          match created_cluster encoded_kubeconfig cluster_config.cluster_name
              cluster_config.region w with
          | .error e => (.error e, trace ++ [ev, .awsUpdateKubeconfig, ev2])
          | .ok cc =>
            let memo9 := { memo8 with
              current_status := "Cluster ready"
              cluster_name := some cluster_config.cluster_name
              region := some cluster_config.region }
            let ev3 :=
              CreateEvent.sendInfo memo9
                (except_is_ok (w.send_info_results (k + 2)))
            match w.send_info_results (k + 2) with
            | .error _ =>
              (.error ⟨.Remaining, "Error sending cluster created message"⟩,
                trace ++ [ev, .awsUpdateKubeconfig, ev2, ev3])
            | .ok _ => (.ok cc, trace ++ [ev, .awsUpdateKubeconfig, ev2, ev3])

/-- Embeds `EksCreator::create` (eks_provider.rs): read the memo, record the intent
fields and checkpoint; parse the cluster config; checkpoint status steps;
build the AWS configs; decide whether creation is required; if so, set
`provisioning_started := true` and checkpoint it before running
`eksctl create cluster`; finally write the kubeconfig, gather the resource
description from a fresh read-back and checkpoint the final memo.  Returns
the result together with the trace of performed actions. -/
def EksCreator.create (spec : Spec) (w : CreateWorld) :
    ProviderResult CreatedCluster × List CreateEvent :=
  match w.get_info with
  | .error _ => (.error ⟨.Clear, "Unable to get info from client"⟩, [])
  | .ok memo0 =>
    let memo1 := { memo0 with
      current_status := "Initializing agent"
      creation_policy := some (spec.configuration.creation_policy.getD default) }
    let ev1 := CreateEvent.sendInfo memo1 (except_is_ok (w.send_info_results 0))
    match w.send_info_results 0 with
    | .error _ =>
      (.error ⟨.Clear, "Error sending cluster creation message"⟩, [ev1])
    | .ok _ =>
      match ClusterConfig.new spec.configuration.config w.file_parse with
      | .error e => (.error e, [ev1])
      | .ok cluster_config =>
        let memo2 := { memo1 with current_status := "Getting AWS secret" }
        let ev2 := CreateEvent.sendInfo memo2 (except_is_ok (w.send_info_results 1))
        match w.send_info_results 1 with
        | .error _ =>
          (.error ⟨.Clear, "Error sending cluster creation message"⟩, [ev1, ev2])
        | .ok _ =>
          let memo3 := { memo2 with
            aws_secret_name := spec.getSecret AWS_CREDENTIALS_SECRET_NAME
            assume_role := spec.configuration.assume_role }
          let memo4 := { memo3 with current_status := "Creating AWS config" }
          let ev3 :=
            CreateEvent.sendInfo memo4 (except_is_ok (w.send_info_results 2))
          match w.send_info_results 2 with
          | .error _ =>
            (.error ⟨.Clear, "Error sending cluster creation message"⟩,
              [ev1, ev2, ev3])
          | .ok _ =>
            match w.aws_config1 with
            | .error _ =>
              (.error ⟨.Clear, "Error creating config"⟩, [ev1, ev2, ev3])
            | .ok _ =>
              match w.aws_config2 with
              | .error _ =>
                (.error ⟨.Clear, "Error creating EKS client config"⟩,
                  [ev1, ev2, ev3])
              | .ok _ =>
                let memo5 :=
                  { memo4 with current_status := "Determining cluster state" }
                let ev4 :=
                  CreateEvent.sendInfo memo5
                    (except_is_ok (w.send_info_results 3))
                match w.send_info_results 3 with
                | .error _ =>
                  (.error ⟨.Clear, "Error sending cluster creation message"⟩,
                    [ev1, ev2, ev3, ev4])
                | .ok _ =>
                  match is_eks_cluster_creation_required
                      cluster_config.cluster_name
                      (spec.configuration.creation_policy.getD default)
                      w.describe_cluster_exists with
                  | .error e => (.error e, [ev1, ev2, ev3, ev4])
                  | .ok (do_create, message) =>
                    let memo6 := { memo5 with current_status := message }
                    let ev5 :=
                      CreateEvent.sendInfo memo6
                        (except_is_ok (w.send_info_results 4))
                    match w.send_info_results 4 with
                    | .error _ =>
                      (.error ⟨.Clear, "Error sending cluster creation message"⟩,
                        [ev1, ev2, ev3, ev4, ev5])
                    | .ok _ =>
                      if do_create then
                        let memo7 := { memo6 with
                          current_status := "Creating cluster"
                          provisioning_started := true }
                        let ev6 :=
                          CreateEvent.sendInfo memo7
                            (except_is_ok (w.send_info_results 5))
                        match w.send_info_results 5 with
                        | .error _ =>
                          (.error
                            ⟨.Clear, "Error sending cluster creation message"⟩,
                            [ev1, ev2, ev3, ev4, ev5, ev6])
                        | .ok _ =>
                          match ClusterConfig.create_cluster cluster_config
                              w.create_yaml_result w.eksctl_create_status with
                          | (.error e, evs) =>
                            (.error e, [ev1, ev2, ev3, ev4, ev5, ev6] ++ evs)
                          | (.ok _, evs) =>
                            let memo8 := { memo7 with
                              current_status := "Cluster creation complete" }
                            let ev7 :=
                              CreateEvent.sendInfo memo8
                                (except_is_ok (w.send_info_results 6))
                            match w.send_info_results 6 with
                            | .error _ =>
                              (.error ⟨.Remaining,
                                "Error sending cluster creation message"⟩,
                                [ev1, ev2, ev3, ev4, ev5, ev6] ++ evs ++ [ev7])
                            | .ok _ =>
                              create_finish spec w cluster_config memo8 7
                                ([ev1, ev2, ev3, ev4, ev5, ev6] ++ evs ++ [ev7])
                      else
                        create_finish spec w cluster_config memo6 5
                          [ev1, ev2, ev3, ev4, ev5]

/-- Whether a create event is a successful checkpoint of a memo that has
`provisioning_started` set (the durability marker of the contract). -/
def is_provisioning_checkpoint : CreateEvent → Bool
  | .sendInfo memo ok => ok && memo.provisioning_started
  | _ => false

/-- Whether a create event is the external `eksctl create cluster`
invocation. -/
def is_eksctl_create : CreateEvent → Bool
  | .eksctlCreateCluster _ => true
  | _ => false

/-- Scanning an event trace in order: `true` when no
`eksctl create cluster` invocation happens before the first successful
checkpoint of a memo with `provisioning_started = true`. -/
def eksctl_only_after_checkpoint : List CreateEvent → Bool
  | [] => true
  | e :: rest =>
    if is_provisioning_checkpoint e then true
    else if is_eksctl_create e then false
    else eksctl_only_after_checkpoint rest

/-- A run world on concrete types where every step succeeds and the runner
produces the result 7. -/
def run_world_ok : RunWorld Nat Nat Nat :=
  { send_test_starting := .ok ()
    runner_run := .ok 7
    send_test_done := fun _ => .ok ()
    runner_terminate := .ok ()
    send_error := fun _ => .ok () }

/-- A run world where the runner fails with error 7 and, additionally, the
error notification and the termination of the runner fail as well. -/
def run_world_runner_fails : RunWorld Nat Nat Nat :=
  { send_test_starting := .ok ()
    runner_run := .error 7
    send_test_done := fun _ => .error 3
    runner_terminate := .error 9
    send_error := fun _ => .error 5 }

/-- A run world where already the starting notification fails. -/
def run_world_start_fails : RunWorld Nat Nat Nat :=
  { send_test_starting := .error 4
    runner_run := .ok 7
    send_test_done := fun _ => .ok ()
    runner_terminate := .ok ()
    send_error := fun _ => .ok () }

/-- A destroy world whose memo is the default one, in which
`provisioning_started` is false. -/
def destroy_world_fresh : DestroyWorld :=
  { get_info := .ok {}
    aws_config_result := .ok ()
    eksctl_delete_status := .ok 0
    send_info_result := .ok () }

/-- A memo of a run that durably started provisioning the cluster
"test-cluster". -/
def destroy_memo_started : ProductionMemo :=
  { current_status := "Creating cluster"
    cluster_name := some "test-cluster"
    provisioning_started := true }

/-- A destroy world in which spawning `eksctl delete cluster` itself fails
(for example because the binary is missing). -/
def destroy_world_spawn_failure : DestroyWorld :=
  { get_info := .ok destroy_memo_started
    aws_config_result := .ok ()
    eksctl_delete_status := .error "No such file or directory"
    send_info_result := .ok () }

/-- A destroy world in which `eksctl delete cluster` runs and exits with
status code 1. -/
def destroy_world_exit_failure : DestroyWorld :=
  { get_info := .ok destroy_memo_started
    aws_config_result := .ok ()
    eksctl_delete_status := .ok 1
    send_info_result := .ok () }

/-- A memo of a run that durably started provisioning but never recorded a
cluster name. -/
def destroy_memo_no_name : ProductionMemo :=
  { current_status := "Creating cluster"
    provisioning_started := true }

/-- A destroy world whose memo has `provisioning_started` set but no cluster
name. -/
def destroy_world_no_name : DestroyWorld :=
  { get_info := .ok destroy_memo_no_name
    aws_config_result := .ok ()
    eksctl_delete_status := .ok 0
    send_info_result := .ok () }

/-- A creation spec using explicit eksctl arguments and a policy that
demands creation. -/
def eks_spec_args : Spec :=
  { configuration :=
      { creation_policy := some .alwaysCreate
        config := .Args "test-cluster" (some "us-west-2") none none
        eks_service_endpoint := none
        assume_role := none }
    secrets := [] }

/-- A create world in which everything succeeds up to and including the
checkpoint of `provisioning_started = true`, and then the spawned
`eksctl create cluster` command exits with status code 1. -/
def create_world_eksctl_fails : CreateWorld :=
  { get_info := .ok {}
    send_info_results := fun _ => .ok ()
    file_parse := .ok none
    aws_config1 := .ok ()
    aws_config2 := .ok ()
    describe_cluster_exists := .notFound
    create_yaml_result := .ok ()
    eksctl_create_status := .ok 1
    update_kubeconfig_status := .ok 0
    read_kubeconfig := .ok ""
    describe_cluster := .error ""
    public_subnets := .error ""
    private_subnets := .error ""
    list_stacks_pages := []
    describe_stack_resource := .error ""
    list_instance_profiles := .error "" }

/-- C6 (counterexample): the claim demands an error for every IPv4 network
string whose part before the slash does not have exactly 4 dot-separated
segments; for `"10.100/1.2.3"` that part is `"10.100"` with 2 segments, yet
the function returns success (it counts the dot-separated segments of the
whole CIDR string, slash suffix included). -/
theorem eks_cluster_dns_ip_before_slash_counterexample :
    segments_before_slash "10.100/1.2.3" ≠ 4
      ∧ service_ip_cidr_to_cluster_dns_ip (some IpFamily.Ipv4)
          (some "10.100/1.2.3") none = Except.ok "10.100/1.2.10" :=
  ⟨by decide, by decide⟩

/-- C6 (amended): `service_ip_cidr_to_cluster_dns_ip` is a pure total
function; on the IPv4 service network `10.100.0.0/16` it returns
`10.100.0.10`; on the IPv6 service network `fd30:1c53:5f8a::/108` it
returns `fd30:1c53:5f8a::a`; and for every IPv4 network string that does
not split into exactly 4 dot-separated segments (the split taken over the
entire CIDR string) it returns a descriptive error rather than panicking. -/
theorem eks_cluster_dns_ip_spec :
    (service_ip_cidr_to_cluster_dns_ip (some IpFamily.Ipv4)
        (some "10.100.0.0/16") none = Except.ok "10.100.0.10")
      ∧ (service_ip_cidr_to_cluster_dns_ip (some IpFamily.Ipv6) none
          (some "fd30:1c53:5f8a::/108") = Except.ok "fd30:1c53:5f8a::a")
      ∧ ∀ s : String, (string_split s '.').length ≠ 4 →
          service_ip_cidr_to_cluster_dns_ip (some IpFamily.Ipv4) (some s) none
            = Except.error ⟨Resources.Remaining,
                "Expected 4 components in serviceIPv4CIDR but found "
                  ++ toString (string_split s '.').length⟩ := by
  refine ⟨by decide, by decide, ?_⟩
  intro s h
  simp [service_ip_cidr_to_cluster_dns_ip, h]

/-- C6 (witness): the amended malformed-input clause applied to the
two-segment string `"10.100"`. -/
theorem eks_cluster_dns_ip_spec_witness :
    service_ip_cidr_to_cluster_dns_ip (some IpFamily.Ipv4) (some "10.100") none
      = Except.error ⟨Resources.Remaining,
          "Expected 4 components in serviceIPv4CIDR but found 2"⟩ :=
  eks_cluster_dns_ip_spec.2.2 "10.100" (by decide)

/-- C3: whenever the memo read from the info channel has
`provisioning_started = false`, `EksDestroyer::destroy` returns success with
an empty action trace: no AWS configuration is built, no
`eksctl delete cluster` command is run, and no memo is written. -/
theorem eks_destroy_noop_when_not_provisioning_started
    (spec : Option Spec) (prior_resource : Option CreatedCluster)
    (w : DestroyWorld) (memo : ProductionMemo)
    (hget : w.get_info = .ok memo)
    (hflag : memo.provisioning_started = false) :
    EksDestroyer.destroy spec prior_resource w = (.ok (), []) := by
  unfold EksDestroyer.destroy
  rw [hget]
  simp [hflag]

/-- C3 (witness): the no-op destroy at the default (fresh) memo. -/
theorem eks_destroy_noop_when_not_provisioning_started_witness :
    EksDestroyer.destroy none none destroy_world_fresh = (.ok (), []) :=
  eks_destroy_noop_when_not_provisioning_started none none destroy_world_fresh
    {} rfl rfl

/-- C10: whenever the memo has `provisioning_started = true` but no cluster
name, `EksDestroyer::destroy` fails with classification `Unknown` and an
empty action trace — in particular the external destroy operation is never
invoked. -/
theorem eks_destroy_missing_cluster_name_unknown
    (spec : Option Spec) (prior_resource : Option CreatedCluster)
    (w : DestroyWorld) (memo : ProductionMemo)
    (hget : w.get_info = .ok memo)
    (hflag : memo.provisioning_started = true)
    (hname : memo.cluster_name = none) :
    EksDestroyer.destroy spec prior_resource w
      = (.error ⟨.Unknown, "Unable to obtain cluster name"⟩, []) := by
  unfold EksDestroyer.destroy
  rw [hget]
  simp [hflag, hname]

/-- C10 (witness): the `Unknown` failure at a concrete nameless memo. -/
theorem eks_destroy_missing_cluster_name_unknown_witness :
    EksDestroyer.destroy none none destroy_world_no_name
      = (.error ⟨.Unknown, "Unable to obtain cluster name"⟩, []) :=
  eks_destroy_missing_cluster_name_unknown none none destroy_world_no_name
    destroy_memo_no_name rfl rfl rfl

/-- C9: the result and the action trace of `EksDestroyer::destroy` do not
depend on the `spec` and `prior_resource` arguments at all (the source binds
both to `_`): two calls observing the same memo and the same external-world
responses are equal for arbitrary values of those arguments. -/
theorem eks_destroy_independent_of_spec_and_prior_resource
    (spec1 spec2 : Option Spec) (prior1 prior2 : Option CreatedCluster)
    (w : DestroyWorld) :
    EksDestroyer.destroy spec1 prior1 w = EksDestroyer.destroy spec2 prior2 w :=
  rfl

/-- C8 (counterexample): in a destroy world where the memo has
`provisioning_started = true` and a cluster name but spawning the
`eksctl delete cluster` command itself fails, the invocation is attempted
(it appears in the trace) and fails, yet the returned classification is
`Remaining`, not `Orphaned` — refuting the claim that every failure of the
eksctl delete invocation is classified `Orphaned`. -/
theorem eks_destroy_spawn_failure_not_orphaned_counterexample :
    (EksDestroyer.destroy none none destroy_world_spawn_failure).2
        = [.awsConfig, .eksctlDeleteCluster "test-cluster" DEFAULT_REGION]
      ∧ (EksDestroyer.destroy none none destroy_world_spawn_failure).1
        = .error ⟨.Remaining, "Failed to run eksctl delete command"⟩
      ∧ Resources.Remaining ≠ Resources.Orphaned := by
  refine ⟨by decide, by decide, by decide⟩

/-- C8 (amended): in `EksDestroyer::destroy`, a failure in which the
`eksctl delete cluster` command runs and exits unsuccessfully is classified
`Orphaned`; a failure to launch the command at all is classified
`Remaining`. -/
theorem eks_destroy_failure_classification
    (spec : Option Spec) (prior_resource : Option CreatedCluster)
    (w : DestroyWorld) (memo : ProductionMemo) (cn : String)
    (hget : w.get_info = .ok memo)
    (hflag : memo.provisioning_started = true)
    (hname : memo.cluster_name = some cn)
    (haws : w.aws_config_result = .ok ()) :
    (∀ code : Int, w.eksctl_delete_status = .ok code → code ≠ 0 →
        (EksDestroyer.destroy spec prior_resource w).1
          = .error ⟨.Orphaned,
              "Failed to delete cluster with status code " ++ toString code⟩)
      ∧ ∀ msg : String, w.eksctl_delete_status = .error msg →
          (EksDestroyer.destroy spec prior_resource w).1
            = .error ⟨.Remaining, "Failed to run eksctl delete command"⟩ := by
  unfold EksDestroyer.destroy
  rw [hget]
  constructor
  · intro code hcode hnz
    simp [hflag, hname, haws, hcode, hnz]
  · intro msg hmsg
    simp [hflag, hname, haws, hmsg]

/-- C8 (witness): the `Orphaned` classification at a concrete world where
the delete command exits with status code 1. -/
theorem eks_destroy_failure_classification_witness :
    (EksDestroyer.destroy none none destroy_world_exit_failure).1
      = .error ⟨.Orphaned, "Failed to delete cluster with status code 1"⟩ :=
  (eks_destroy_failure_classification none none destroy_world_exit_failure
    destroy_memo_started "test-cluster" rfl rfl rfl rfl).1 1 rfl (by decide)

/-- C4: in every execution of `TestAgent::run`, the outcome notification
`send_test_done` is performed at most once, and any performed
`send_test_done t` implies that the runner ran and returned success `t`. -/
theorem test_agent_run_send_test_done_at_most_once {CE RE T : Type}
    (w : RunWorld CE RE T) :
    (TestAgent.run w).2.countP is_send_test_done ≤ 1
      ∧ ∀ t : T, AgentEvent.sendTestDone t ∈ (TestAgent.run w).2 →
          w.runner_run = .ok t := by
  unfold TestAgent.run send_error_best_effort terminate_best_effort
  cases hs : w.send_test_starting with
  | error ce => simp [is_send_test_done]
  | ok u =>
    cases hr : w.runner_run with
    | error re =>
      cases ht : w.runner_terminate <;>
        simp [is_send_test_done, send_error_best_effort, List.countP_cons,
          List.countP_nil]
    | ok tr =>
      cases hd : w.send_test_done tr with
      | error ce =>
        cases ht : w.runner_terminate <;>
          simp_all [is_send_test_done, send_error_best_effort,
            List.countP_cons, List.countP_nil]
      | ok v =>
        cases ht : w.runner_terminate <;>
          simp_all [is_send_test_done, send_error_best_effort,
            List.countP_cons, List.countP_nil]

/-- C4 (witness): applying the theorem at a concrete fully successful world
whose trace contains `send_test_done 7`, concluding the runner returned 7. -/
theorem test_agent_run_send_test_done_at_most_once_witness :
    run_world_ok.runner_run = .ok 7 :=
  (test_agent_run_send_test_done_at_most_once run_world_ok).2 7 (by decide)

/-- C5: if the starting notification went through and the runner failed with
error `re`, `TestAgent::run` returns exactly the `Runner re` error — whatever
the outcomes of the best-effort error notification and the best-effort
termination are. -/
theorem test_agent_run_returns_original_runner_error {CE RE T : Type}
    (w : RunWorld CE RE T) (re : RE)
    (hstart : w.send_test_starting = .ok ())
    (hrun : w.runner_run = .error re) :
    (TestAgent.run w).1 = .error (.Runner re) := by
  unfold TestAgent.run
  rw [hstart, hrun]

/-- C5 (witness): the original runner error 7 is returned even though the
error notification and the termination both fail in this world. -/
theorem test_agent_run_returns_original_runner_error_witness :
    (TestAgent.run run_world_runner_fails).1 = .error (.Runner 7) :=
  test_agent_run_returns_original_runner_error run_world_runner_fails 7 rfl rfl

/-- C7: if the starting notification fails with client error `ce`,
`TestAgent::run` returns the `Client ce` error and its trace is exactly the
starting-notification attempt: the runner is not run, no error notification
is attempted and the runner is not terminated. -/
theorem test_agent_run_aborts_after_send_test_starting_failure {CE RE T : Type}
    (w : RunWorld CE RE T) (ce : CE)
    (h : w.send_test_starting = .error ce) :
    TestAgent.run w = (.error (.Client ce), [.sendTestStarting]) := by
  unfold TestAgent.run
  rw [h]

/-- C7 (witness): the immediate abort at a concrete world whose starting
notification fails with error 4. -/
theorem test_agent_run_aborts_after_send_test_starting_failure_witness :
    TestAgent.run run_world_start_fails
      = (.error (.Client 4), [.sendTestStarting]) :=
  test_agent_run_aborts_after_send_test_starting_failure run_world_start_fails
    4 rfl

/-- C1: in every execution of `EksCreator::create`, over any world and any
spec, no `eksctl create cluster` invocation appears in the action trace
before a successful `send_info` of a memo with `provisioning_started = true`:
the external create operation runs only after the durability marker has been
checkpointed, and if that checkpoint send fails the create operation is never
invoked. -/
theorem eks_create_checkpoint_before_create_cluster (spec : Spec)
    (w : CreateWorld) :
    eksctl_only_after_checkpoint (EksCreator.create spec w).2 = true := by
  unfold EksCreator.create create_finish
  cases hg : w.get_info with
  | error e => rfl
  | ok memo0 =>
    cases hb : memo0.provisioning_started with
    | true =>
      repeat' split
      all_goals try simp_all [eksctl_only_after_checkpoint,
        is_provisioning_checkpoint, is_eksctl_create, except_is_ok]
      all_goals repeat' split
      all_goals simp_all [eksctl_only_after_checkpoint,
        is_provisioning_checkpoint, is_eksctl_create, except_is_ok]
    | false =>
      repeat' split
      all_goals try simp_all [eksctl_only_after_checkpoint,
        is_provisioning_checkpoint, is_eksctl_create, except_is_ok]
      all_goals repeat' split
      all_goals simp_all [eksctl_only_after_checkpoint,
        is_provisioning_checkpoint, is_eksctl_create, except_is_ok]

/-- C2 (code bug): in a world where creation is required, every checkpoint
succeeds, and the spawned `eksctl create cluster` exits with status code 1,
`EksCreator::create` returns an error classified `Clear` even though a memo
with `provisioning_started = true` was already successfully checkpointed
(the trace contains that checkpoint).  The source classifies the whole
`eksctl create cluster` failure path `Resources::Clear`, while the contract
requires at least `Remaining` for every failure after the durability marker
is set. -/
theorem eks_create_clear_after_provisioning_started_bug :
    (EksCreator.create eks_spec_args create_world_eksctl_fails).1
        = .error ⟨.Clear, "Failed create cluster with status code 1"⟩
      ∧ (EksCreator.create eks_spec_args create_world_eksctl_fails).2.any
          is_provisioning_checkpoint = true :=
  ⟨rfl, rfl⟩
